import Mathlib

/-!
Verification of the authentication / user-provisioning layer of the
ASP-Latest-CRM repository, as a shallow embedding in Lean.

Embedded source files:
* `src/services/firestore/authService.ts` — role inference
  (`determineRoleFromEmail`), the sign-in reconciliation protocol (`signIn`),
  `getCurrentUser`, `updateUserProfile`.
* the bootstrap seeder file (`INITIAL_USERS`, `createInitialUser`,
  `setupInitialUsers`).

External collaborators (identity provider, document store, client-local
storage) are modelled as oracle outcomes in explicit environment records;
client-visible effects (store documents, session markers, the background
write attempt) are threaded as explicit state.
-/

namespace AspCrm

/-- The closed role set of `src/types/auth` as used throughout the code. -/
inductive UserRole
  | admin
  | sales_agent
  | operations_manager
  | operator
deriving DecidableEq, Repr

/-- The `User` shape returned by the auth service functions. -/
structure User where
  id : String
  name : String
  email : String
  role : UserRole
deriving DecidableEq, Repr

/-- A persisted `users/{id}` document: `{id, name, email, role, createdAt}`
(`createdAt` is the opaque server timestamp, modelled as a `Nat`). -/
structure StoredDoc where
  id : String
  name : String
  email : String
  role : UserRole
  createdAt : Nat
deriving DecidableEq, Repr

/-- The identity provider's record of an authenticated account
(`firebaseUser`): uid, possibly-null email, possibly-null display name. -/
structure Principal where
  uid : String
  email : Option String
  displayName : Option String
deriving DecidableEq, Repr

/-- Boolean prefix test on character lists. -/
def isPrefixB : List Char → List Char → Bool
  | [], _ => true
  | _ :: _, [] => false
  | a :: as, b :: bs => a == b && isPrefixB as bs

/-- Boolean contiguous-sublist test on character lists. -/
def isSubListB (needle : List Char) : List Char → Bool
  | [] => needle.isEmpty
  | b :: bs => isPrefixB needle (b :: bs) || isSubListB needle bs

/-- JavaScript `haystack.includes(needle)` on strings: substring test. -/
def containsSub (needle hay : String) : Bool :=
  isSubListB needle.data hay.data

/-- `determineRoleFromEmail` from authService.ts lines 13–21.  JavaScript
`!email` is true both for `null` and for the empty string, so both are
modelled as the first early return. -/
def determineRoleFromEmail : Option String → UserRole
  | none => .operator
  | some email =>
    if email = "" then .operator
    else if containsSub "admin" email then .admin
    else if containsSub "sales" email then .sales_agent
    else if containsSub "ops" email || containsSub "manager" email then .operations_manager
    else .operator

/-- Role inference as the spec words it (§4.1): a rule list evaluated in
fixed priority order, first match wins; written from the spec to be compared
with the source translation `determineRoleFromEmail`. -/
def inferRoleSpec : Option String → UserRole
  | none => .operator
  | some email =>
    if containsSub "admin" email then .admin
    else if containsSub "sales" email then .sales_agent
    else if containsSub "ops" email || containsSub "manager" email then .operations_manager
    else .operator

/-- C4: `determineRoleFromEmail` is pure and total (a Lean function on
`Option String`), agrees everywhere with the spec's fixed-priority
first-match rule list, and on an email containing both "admin" and "ops"
returns admin (priority order). -/
theorem determineRoleFromEmail_spec :
    (∀ e : Option String, determineRoleFromEmail e = inferRoleSpec e)
    ∧ determineRoleFromEmail (some "admin.ops@x.com") = .admin := by
  refine ⟨fun e => ?_, by decide⟩
  cases e with
  | none => rfl
  | some s =>
    by_cases h : s = ""
    · subst h; decide
    · simp [determineRoleFromEmail, inferRoleSpec, h]

/-- Lookup in the `users` collection, modelled as an association list keyed
by uid. -/
def storeGet (docs : List (String × StoredDoc)) (k : String) : Option StoredDoc :=
  match docs with
  | [] => none
  | (k', v) :: rest => if k' = k then some v else storeGet rest k

/-- `setDoc` without merge: overwrite the document at key `k`. -/
def storeSet (docs : List (String × StoredDoc)) (k : String) (v : StoredDoc) :
    List (String × StoredDoc) :=
  (k, v) :: docs.filter (fun p => p.1 != k)

theorem storeGet_set_self (docs : List (String × StoredDoc)) (k : String)
    (v : StoredDoc) : storeGet (storeSet docs k v) k = some v := by
  simp [storeGet, storeSet]

/-- The client-visible mutable state around one auth-service call: the
`users` collection, the two sessionStorage markers
(`explicit-auth-action`, `user-authenticated-this-session`), and the
client-side persistent-auth cache. -/
structure ClientState where
  store : List (String × StoredDoc)
  explicitAuthAction : Bool
  userAuthedThisSession : Bool
  persistentAuth : Option User
deriving DecidableEq, Repr

/-- Outcome of the awaited Firestore document read (`safeGetDoc` on a valid
reference): document data present, document absent, or the read throws with
some error code. -/
inductive ReadOutcome
  | found (d : StoredDoc)
  | missing
  | err (code : String)
deriving DecidableEq, Repr

/-- Oracle outcomes of the external collaborators during one `signIn` call.
`dbInit` models `db` being non-null (part_000 initializes it with
`getFirestore`, which never returns null, so in the running program it is
always `true`); `writeOk` is the outcome of the awaited `setDoc` in the
missing-document branch; `bgWriteOk` the outcome of the fire-and-forget
background `setDoc`; `now` stands for `serverTimestamp()`. -/
structure SignInEnv where
  dbInit : Bool
  readOutcome : ReadOutcome
  writeOk : Bool
  bgWriteOk : Bool
  now : Nat
deriving DecidableEq, Repr

/-- The observable result of one `signIn` call: the returned or thrown
value, the final client state, and whether each of the two store writes
(the awaited missing-document create, the background degraded-path write)
was attempted. -/
structure SignInResult where
  result : Except String User
  state : ClientState
  docWriteAttempted : Bool
  bgWriteAttempted : Bool

/-- JavaScript `email.split('@')[0]`: the characters before the first `@`
(the whole string when there is none). -/
def takeUntilAt (c : Char) : List Char → List Char
  | [] => []
  | a :: as => if a == c then [] else a :: takeUntilAt c as

/-- The local part of an email address, as `split('@')[0]` produces it. -/
def localPart (s : String) : String := ⟨takeUntilAt '@' s.data⟩

/-- The name fallback chain
`firebaseUser.displayName || firebaseUser.email?.split('@')[0] || 'User'`
(JavaScript `||`: null/undefined and the empty string are both falsy). -/
def fallbackName (displayName : Option String) (email : Option String) : String :=
  let d := displayName.getD ""
  if d ≠ "" then d
  else
    let l := (email.map localPart).getD ""
    if l ≠ "" then l else "User"

/-- The profile synthesized from Principal data and role inference, built
with identical expressions in the missing-document branch and the degraded
path of `signIn` and in the fallback branches of `getCurrentUser`. -/
def fallbackUser (p : Principal) : User :=
  { id := p.uid
    name := fallbackName p.displayName p.email
    email := p.email.getD ""
    role := determineRoleFromEmail p.email }

/-- The degraded path of `signIn` (authService.ts lines 152–193), reached
when the Firestore read throws or when the missing-document persistence
write throws: synthesize the profile from auth data, attempt a background
fire-and-forget document write whose failure is only logged (no attempt
when `db` is null, since the reference is null), set the
session-authenticated marker, and save the profile to the persistent-auth
cache.  `savePersistentAuth` lives in `persistentAuth.ts`, which is not
among the provided sources; modelled from the spec: it persists the
resolved profile to a client-side durable cache, always succeeding.
Returns the resolved user, the new state, and whether the background write
was attempted. -/
def degradedPath (env : SignInEnv) (p : Principal) (s : ClientState) :
    User × ClientState × Bool :=
  let user := fallbackUser p
  let (store', attempted) :=
    if env.dbInit then
      (if env.bgWriteOk then
         storeSet s.store p.uid ⟨p.uid, user.name, user.email, user.role, env.now⟩
       else s.store, true)
    else (s.store, false)
  (user,
   { s with store := store', userAuthedThisSession := true, persistentAuth := some user },
   attempted)

/-- `signIn` (authService.ts lines 76–214) after a successful provider
authentication and token refresh for principal `p`: the explicit-auth
marker write, the Firestore profile lookup, the missing-document create,
and the degraded fallback.  The inner `throw createError` of the
missing-document branch is caught by the enclosing
`catch (firestoreError)` (the inner try of lines 131–145 sits inside the
try of line 96), so it runs the degraded path rather than propagating; on
these post-authentication paths the top-level error-code mapping is never
reached. -/
def signIn (env : SignInEnv) (p : Principal) (s0 : ClientState) : SignInResult :=
  let s := { s0 with explicitAuthAction := true }
  let runDegraded : Bool → SignInResult := fun docAttempted =>
    let (user, s', bgAttempted) := degradedPath env p s
    ⟨.ok user, s', docAttempted, bgAttempted⟩
  if env.dbInit then
    match env.readOutcome with
    | .found d => ⟨.ok ⟨p.uid, d.name, d.email, d.role⟩, s, false, false⟩
    | .missing =>
      let userData : StoredDoc :=
        ⟨p.uid, fallbackName p.displayName p.email, p.email.getD "",
         determineRoleFromEmail p.email, env.now⟩
      if env.writeOk then
        ⟨.ok ⟨p.uid, userData.name, userData.email, userData.role⟩,
         { s with store := storeSet s.store p.uid userData }, true, false⟩
      else
        runDegraded true
    | .err _ => runDegraded false
  else
    runDegraded false

/-- A concrete empty client state used by concrete instances. -/
def s0 : ClientState := ⟨[], false, false, none⟩

/-- Concrete environment: store reachable, document missing, awaited
persistence write fails. -/
def envC1 : SignInEnv := ⟨true, .missing, false, false, 7⟩

/-- Concrete principal with an email and no display name. -/
def pC1 : Principal := ⟨"uid-1", some "pat@x.com", none⟩

/-- C1 counterexample: with the store reachable, no profile document, and
the persistence write failing, `signIn` does not propagate the persistence
error: the inner `throw createError` is caught by the enclosing store-read
handler and sign-in returns the synthesized profile successfully — the
PROFILE_MISSING write failure is a fall-through to the degraded path, not
a hard failure. -/
theorem signIn_missing_writeFail_not_hard_failure :
    envC1.readOutcome = .missing ∧ envC1.writeOk = false ∧
    (signIn envC1 pC1 s0).result = .ok ⟨"uid-1", "pat", "pat@x.com", .operator⟩ :=
  ⟨rfl, rfl, rfl⟩

/-- C1 (amended): when the store read succeeds but no profile document
exists, a profile is synthesized and a persistence write is attempted; if
that write fails, the error is caught by the store-read error handler and
`signIn` falls through to the degraded path, returning the synthesized
profile successfully (with a background write attempted and the session
marked authenticated) — the persistence error never reaches the caller. -/
theorem signIn_missing_writeFail_degrades (env : SignInEnv) (p : Principal)
    (s : ClientState) (hdb : env.dbInit = true)
    (hro : env.readOutcome = .missing) (hw : env.writeOk = false) :
    (signIn env p s).docWriteAttempted = true
    ∧ (signIn env p s).result = .ok (fallbackUser p)
    ∧ (signIn env p s).bgWriteAttempted = true
    ∧ (signIn env p s).state.userAuthedThisSession = true := by
  simp [signIn, degradedPath, hdb, hro, hw]

/-- C1 witness: the amended behaviour at the concrete input. -/
theorem signIn_missing_writeFail_degrades_witness :
    envC1.dbInit = true ∧ envC1.readOutcome = .missing ∧ envC1.writeOk = false
    ∧ ((signIn envC1 pC1 s0).docWriteAttempted = true
       ∧ (signIn envC1 pC1 s0).result = .ok (fallbackUser pC1)
       ∧ (signIn envC1 pC1 s0).bgWriteAttempted = true
       ∧ (signIn envC1 pC1 s0).state.userAuthedThisSession = true) :=
  ⟨rfl, rfl, rfl, signIn_missing_writeFail_degrades envC1 pC1 s0 rfl rfl rfl⟩

/-- C2: when provider authentication succeeds and the store read throws,
`signIn` still returns successfully with the profile synthesized from
Principal data and role inference; the background persistence write is
attempted, and its failure never changes the returned value and never
raises to the caller (the returned value is the same whether the
background write fails or succeeds).  The `dbInit` hypothesis holds in the
running program: part_000 initializes `db` with `getFirestore`. -/
theorem signIn_readErr_degraded (env : SignInEnv) (p : Principal)
    (s : ClientState) (c : String) (hdb : env.dbInit = true)
    (hro : env.readOutcome = .err c) :
    (signIn env p s).result = .ok (fallbackUser p)
    ∧ (signIn env p s).bgWriteAttempted = true
    ∧ (signIn { env with bgWriteOk := false } p s).result
        = (signIn { env with bgWriteOk := true } p s).result := by
  refine ⟨?_, ?_, ?_⟩ <;> simp [signIn, degradedPath, hdb, hro]

/-- Concrete environment: store read throws, background write fails. -/
def envC2 : SignInEnv := ⟨true, .err "unavailable", true, false, 0⟩

/-- C2 witness: the degraded-path behaviour at a concrete input whose
background write fails. -/
theorem signIn_readErr_degraded_witness :
    envC2.dbInit = true ∧ envC2.readOutcome = .err "unavailable"
    ∧ ((signIn envC2 pC1 s0).result = .ok (fallbackUser pC1)
       ∧ (signIn envC2 pC1 s0).bgWriteAttempted = true
       ∧ (signIn { envC2 with bgWriteOk := false } pC1 s0).result
           = (signIn { envC2 with bgWriteOk := true } pC1 s0).result) :=
  ⟨rfl, rfl, signIn_readErr_degraded envC2 pC1 s0 "unavailable" rfl rfl⟩

/-- C5 (amended): when the store read succeeds and a document exists,
`signIn` returns its `name`, `email` and `role` exactly as stored with no
synthesis, no store write, and no further steps (store, session-auth
marker and persistent-auth cache unchanged) — but the returned `id` is the
principal's uid (the document key), not the document's own `id` field. -/
theorem signIn_found_verbatim (env : SignInEnv) (p : Principal)
    (s : ClientState) (d : StoredDoc) (hdb : env.dbInit = true)
    (hro : env.readOutcome = .found d) :
    (signIn env p s).result = .ok ⟨p.uid, d.name, d.email, d.role⟩
    ∧ (signIn env p s).state.store = s.store
    ∧ (signIn env p s).state.userAuthedThisSession = s.userAuthedThisSession
    ∧ (signIn env p s).state.persistentAuth = s.persistentAuth
    ∧ (signIn env p s).docWriteAttempted = false
    ∧ (signIn env p s).bgWriteAttempted = false := by
  refine ⟨?_, ?_, ?_, ?_, ?_, ?_⟩ <;> simp [signIn, hdb, hro]

/-- Concrete stored document whose `id` field differs from its key. -/
def dC5 : StoredDoc := ⟨"doc-id", "Stored Name", "stored@x.com", .admin, 3⟩

/-- Concrete environment: store read finds `dC5`. -/
def envC5 : SignInEnv := ⟨true, .found dC5, true, true, 3⟩

/-- Concrete principal whose uid differs from `dC5`'s `id` field. -/
def pC5 : Principal := ⟨"uid-5", some "pat@x.com", some "Pat"⟩

/-- C5 counterexample: the profile returned from the PROFILE_FOUND branch
carries the principal's uid, not the stored document's `id` field — here
the store holds a document whose `id` field is "doc-id" under key "uid-5",
and `signIn` returns id "uid-5", so the returned profile's id is not
"exactly as stored". -/
theorem signIn_found_id_not_from_doc :
    envC5.readOutcome = .found dC5 ∧ dC5.id = "doc-id"
    ∧ (signIn envC5 pC5 s0).result
        = .ok ⟨"uid-5", "Stored Name", "stored@x.com", .admin⟩
    ∧ ("uid-5" : String) ≠ "doc-id" :=
  ⟨rfl, rfl, rfl, by decide⟩

/-- C5 witness: the amended verbatim-fields behaviour at the concrete
input. -/
theorem signIn_found_verbatim_witness :
    envC5.dbInit = true ∧ envC5.readOutcome = .found dC5
    ∧ ((signIn envC5 pC5 s0).result = .ok ⟨"uid-5", dC5.name, dC5.email, dC5.role⟩
       ∧ (signIn envC5 pC5 s0).state.store = s0.store
       ∧ (signIn envC5 pC5 s0).state.userAuthedThisSession = s0.userAuthedThisSession
       ∧ (signIn envC5 pC5 s0).state.persistentAuth = s0.persistentAuth
       ∧ (signIn envC5 pC5 s0).docWriteAttempted = false
       ∧ (signIn envC5 pC5 s0).bgWriteAttempted = false) :=
  ⟨rfl, rfl, signIn_found_verbatim envC5 pC5 s0 dC5 rfl rfl⟩

/-- C6: when the store is reachable, the document is missing, and the
persistence write succeeds, `signIn` returns a synthesized profile whose
role is `determineRoleFromEmail` of the principal's email and whose name
is the fallback chain displayName → email local-part → "User"; afterwards
the store holds, under the principal's uid, a document with exactly that
id, name, email, role (and the server timestamp). -/
theorem signIn_missing_writeOk_synthesizes (env : SignInEnv) (p : Principal)
    (s : ClientState) (hdb : env.dbInit = true)
    (hro : env.readOutcome = .missing) (hw : env.writeOk = true) :
    (signIn env p s).result = .ok (fallbackUser p)
    ∧ (fallbackUser p).role = determineRoleFromEmail p.email
    ∧ (fallbackUser p).name = fallbackName p.displayName p.email
    ∧ storeGet (signIn env p s).state.store p.uid
        = some ⟨p.uid, fallbackName p.displayName p.email, p.email.getD "",
                determineRoleFromEmail p.email, env.now⟩ := by
  refine ⟨?_, rfl, rfl, ?_⟩
  · simp [signIn, hdb, hro, hw, fallbackUser]
  · simp [signIn, hdb, hro, hw, storeGet_set_self]

/-- Concrete environment: store reachable, document missing, persistence
write succeeds. -/
def envC6 : SignInEnv := ⟨true, .missing, true, false, 42⟩

/-- C6 witness: the synthesize-and-persist behaviour at a concrete input. -/
theorem signIn_missing_writeOk_synthesizes_witness :
    envC6.dbInit = true ∧ envC6.readOutcome = .missing ∧ envC6.writeOk = true
    ∧ ((signIn envC6 pC1 s0).result = .ok (fallbackUser pC1)
       ∧ (fallbackUser pC1).role = determineRoleFromEmail pC1.email
       ∧ (fallbackUser pC1).name = fallbackName pC1.displayName pC1.email
       ∧ storeGet (signIn envC6 pC1 s0).state.store pC1.uid
           = some ⟨pC1.uid, fallbackName pC1.displayName pC1.email,
                   pC1.email.getD "", determineRoleFromEmail pC1.email,
                   envC6.now⟩) :=
  ⟨rfl, rfl, rfl, signIn_missing_writeOk_synthesizes envC6 pC1 s0 rfl rfl rfl⟩

/-- Oracle outcomes for one `getCurrentUser` call: whether `auth` is
initialized, the currently authenticated principal (if any), whether `db`
is initialized, and the outcome of the document read. -/
structure CurrentEnv where
  authInit : Bool
  currentPrincipal : Option Principal
  dbInit : Bool
  readOutcome : ReadOutcome
deriving DecidableEq, Repr

/-- `getCurrentUser` (authService.ts lines 246–301): null when `auth` is
not initialized or no principal is signed in; fallback synthesized profile
when `db` is null (the document reference is null, so no read happens);
stored fields (with the principal's uid) when the document is found;
synthesized profile when no document is found; and — unlike `signIn` — the
catch at line 297 rethrows, so a throwing read propagates the error.  The
function performs no store write and no sessionStorage access, so the
client state is returned untouched. -/
def getCurrentUser (env : CurrentEnv) (s : ClientState) :
    Except String (Option User) × ClientState :=
  if !env.authInit then (.ok none, s)
  else
    match env.currentPrincipal with
    | none => (.ok none, s)
    | some p =>
      if !env.dbInit then (.ok (some (fallbackUser p)), s)
      else
        match env.readOutcome with
        | .found d => (.ok (some ⟨p.uid, d.name, d.email, d.role⟩), s)
        | .missing => (.ok (some (fallbackUser p)), s)
        | .err c => (.error c, s)

/-- Current-principal resolution as the amended claim words it: null (not
an error) when the auth client is uninitialized or no principal is
authenticated; the stored document's name/email/role under the principal's
uid when the read finds it; a synthesized profile when no document exists
or the store client is uninitialized; and the read error propagated when
the store read throws. -/
def getCurrentUserSpec (env : CurrentEnv) : Except String (Option User) :=
  match env.currentPrincipal with
  | none => .ok none
  | some p =>
    if !env.authInit then .ok none
    else if !env.dbInit then .ok (some (fallbackUser p))
    else
      match env.readOutcome with
      | .found d => .ok (some ⟨p.uid, d.name, d.email, d.role⟩)
      | .missing => .ok (some (fallbackUser p))
      | .err c => .error c

/-- Concrete environment: principal authenticated, store read throws. -/
def envC3 : CurrentEnv := ⟨true, some pC1, true, .err "unavailable"⟩

/-- C3 counterexample: with a principal authenticated and the store read
throwing, `getCurrentUser` propagates the error instead of returning a
synthesized profile — the read-failure leg of the claimed sign-in-style
fallback does not exist in `getCurrentUser`. -/
theorem getCurrentUser_readErr_throws :
    envC3.readOutcome = .err "unavailable"
    ∧ (getCurrentUser envC3 s0).1 = .error "unavailable" :=
  ⟨rfl, rfl⟩

/-- C3 (amended): `getCurrentUser` returns null (not an error) when no
principal is authenticated; when one is authenticated it returns the
stored document's fields if the read finds it and a synthesized profile if
no document exists (or the store client is uninitialized), but a throwing
store read propagates the error rather than synthesizing; and it never
writes to the store and never modifies the session markers (the client
state is returned unchanged). -/
theorem getCurrentUser_eq_spec (env : CurrentEnv) (s : ClientState) :
    getCurrentUser env s = (getCurrentUserSpec env, s) := by
  obtain ⟨a, cp, db, ro⟩ := env
  cases a <;> cases cp <;> cases db <;> cases ro <;> rfl

/-- A `Partial<User>` patch: each field optionally supplied. -/
structure UserUpdate where
  id : Option String := none
  name : Option String := none
  email : Option String := none
  role : Option UserRole := none
deriving DecidableEq, Repr

/-- Firestore `setDoc(..., { merge: true })` on an existing schema-shaped
document: supplied fields overwrite, absent fields keep their stored
values (a `Partial<User>` never carries `createdAt`). -/
def mergeDoc (d : StoredDoc) (u : UserUpdate) : StoredDoc :=
  { id := u.id.getD d.id
    name := u.name.getD d.name
    email := u.email.getD d.email
    role := u.role.getD d.role
    createdAt := d.createdAt }

/-- Oracle outcomes for one `updateUserProfile` call: `db` initialized,
merge write succeeds, read-back succeeds. -/
structure UpdateEnv where
  dbInit : Bool
  setOk : Bool
  getOk : Bool
deriving DecidableEq, Repr

/-- `updateUserProfile` (authService.ts lines 304–334): merge-write the
partial fields, read the document back, and return its fields (with the
argument id); a thrown write or read-back error propagates (the catch
rethrows; placeholder codes stand for the underlying store errors).  A
merge write into an absent key creates a document holding only the
supplied fields, which has no schema-shaped representation in this model;
modelled from the spec (§4.4): the call fails with the not-found error
when no schema-shaped document can be read back after the merge write. -/
def updateUserProfile (env : UpdateEnv) (userId : String) (updates : UserUpdate)
    (docs : List (String × StoredDoc)) :
    Except String User × List (String × StoredDoc) :=
  if !env.dbInit then
    (.error "Failed to create document reference: Firestore not initialized", docs)
  else if !env.setOk then (.error "store-write-error", docs)
  else
    match storeGet docs userId with
    | some d =>
      let merged := mergeDoc d updates
      let docs' := storeSet docs userId merged
      if !env.getOk then (.error "store-read-error", docs')
      else (.ok ⟨userId, merged.name, merged.email, merged.role⟩, docs')
    | none => (.error "User data not found after update", docs)

/-- C7: for an existing profile document, `updateUserProfile` with a
partial field set merges rather than replaces — fields absent from the
partial retain their stored values (in particular name and email when only
a role is supplied), supplied fields change to the supplied values, and
the returned profile reflects the merged document read back from the
store. -/
theorem updateUserProfile_merges (env : UpdateEnv) (userId : String)
    (updates : UserUpdate) (docs : List (String × StoredDoc)) (d : StoredDoc)
    (hdb : env.dbInit = true) (hset : env.setOk = true) (hget : env.getOk = true)
    (hd : storeGet docs userId = some d) :
    (updateUserProfile env userId updates docs).1
      = .ok ⟨userId, (mergeDoc d updates).name, (mergeDoc d updates).email,
             (mergeDoc d updates).role⟩
    ∧ storeGet (updateUserProfile env userId updates docs).2 userId
        = some (mergeDoc d updates)
    ∧ (updates.name = none → (mergeDoc d updates).name = d.name)
    ∧ (updates.email = none → (mergeDoc d updates).email = d.email)
    ∧ (updates.id = none → (mergeDoc d updates).id = d.id)
    ∧ (∀ r, updates.role = some r → (mergeDoc d updates).role = r)
    ∧ (mergeDoc d updates).createdAt = d.createdAt := by
  refine ⟨?_, ?_, fun h => ?_, fun h => ?_, fun h => ?_, fun r h => ?_, rfl⟩
  · simp [updateUserProfile, hdb, hset, hget, hd]
  · simp [updateUserProfile, hdb, hset, hget, hd, storeGet_set_self]
  · simp [mergeDoc, h]
  · simp [mergeDoc, h]
  · simp [mergeDoc, h]
  · simp [mergeDoc, h]

/-- Concrete existing document for the update scenario. -/
def dC7 : StoredDoc := ⟨"uid-7", "Name Seven", "u7@x.com", .operator, 1⟩

/-- Concrete role-only patch. -/
def updC7 : UserUpdate := { role := some .admin }

/-- Concrete store holding only `dC7`. -/
def docsC7 : List (String × StoredDoc) := [("uid-7", dC7)]

/-- Concrete update environment with every store operation succeeding. -/
def envC7 : UpdateEnv := ⟨true, true, true⟩

/-- C7 witness: a role-only patch at the concrete input leaves name and
email unchanged and changes only the role. -/
theorem updateUserProfile_merges_witness :
    envC7.dbInit = true ∧ envC7.setOk = true ∧ envC7.getOk = true
    ∧ storeGet docsC7 "uid-7" = some dC7
    ∧ ((updateUserProfile envC7 "uid-7" updC7 docsC7).1
         = .ok ⟨"uid-7", (mergeDoc dC7 updC7).name, (mergeDoc dC7 updC7).email,
                (mergeDoc dC7 updC7).role⟩
       ∧ storeGet (updateUserProfile envC7 "uid-7" updC7 docsC7).2 "uid-7"
           = some (mergeDoc dC7 updC7)
       ∧ (updC7.name = none → (mergeDoc dC7 updC7).name = dC7.name)
       ∧ (updC7.email = none → (mergeDoc dC7 updC7).email = dC7.email)
       ∧ (updC7.id = none → (mergeDoc dC7 updC7).id = dC7.id)
       ∧ (∀ r, updC7.role = some r → (mergeDoc dC7 updC7).role = r)
       ∧ (mergeDoc dC7 updC7).createdAt = dC7.createdAt) :=
  ⟨rfl, rfl, rfl, rfl,
   updateUserProfile_merges envC7 "uid-7" updC7 docsC7 dC7 rfl rfl rfl rfl⟩

/-- An entry of the seeder's fixed list. -/
structure InitialUser where
  email : String
  password : String
  name : String
  role : UserRole
deriving DecidableEq, Repr

/-- `INITIAL_USERS` (part_001 lines 13–38): the fixed ordered account
list. -/
def INITIAL_USERS : List InitialUser :=
  [⟨"admin@aspcranes.com", "admin123", "Admin User", .admin⟩,
   ⟨"john@aspcranes.com", "sales123", "John Sales", .sales_agent⟩,
   ⟨"sara@aspcranes.com", "manager123", "Sara Manager", .operations_manager⟩,
   ⟨"mike@aspcranes.com", "operator123", "Mike Operator", .operator⟩]

/-- The provider's disposition toward creating an account for an email
that does not yet exist: creation succeeds, the provider rate-limits, or
it throws some other code. -/
inductive Disposition
  | created
  | rateLimited
  | otherErr (code : String)
deriving DecidableEq, Repr

/-- Oracle for one seeder run: the provider's disposition per email, the
uid it assigns on creation, and the server timestamp. -/
structure SeedEnv where
  disposition : String → Disposition
  uidOf : String → String
  now : Nat

/-- State around the seeder: the provider's existing accounts (by email),
the `users` collection, and the sticky localStorage rate-limit flag
(`user-setup-rate-limited`). -/
structure SeedState where
  accounts : List String
  store : List (String × StoredDoc)
  rateLimitFlag : Bool
deriving DecidableEq, Repr

/-- Boolean membership of an email in the provider's account list. -/
def memB (e : String) : List String → Bool
  | [] => false
  | a :: as => a == e || memB e as

/-- `createUserWithEmailAndPassword`: throws `auth/email-already-in-use`
when the email already has an account, otherwise acts per the provider's
disposition, returning the new uid on success. -/
def providerCreate (env : SeedEnv) (s : SeedState) (email : String) :
    Except String String :=
  if memB email s.accounts then .error "auth/email-already-in-use"
  else
    match env.disposition email with
    | .created => .ok (env.uidOf email)
    | .rateLimited => .error "auth/too-many-requests"
    | .otherErr c => .error c

/-- `createInitialUser` (part_001 lines 41–78): create the provider
account, set the display name, write the `users/{uid}` document, and
return the user; an `auth/email-already-in-use` error is swallowed
(returns null, state untouched), any other thrown code is rethrown. -/
def createInitialUser (env : SeedEnv) (s : SeedState) (email _password name : String)
    (role : UserRole) : Except String (Option User × SeedState) :=
  match providerCreate env s email with
  | .ok uid =>
    .ok (some ⟨uid, name, email, role⟩,
         { s with accounts := email :: s.accounts,
                  store := storeSet s.store uid ⟨uid, name, email, role, env.now⟩ })
  | .error c =>
    if c = "auth/email-already-in-use" then .ok (none, s) else .error c

/-- The loop of `setupInitialUsers` (part_001 lines 83–108) over the
remaining list, accumulating the emails for which `createInitialUser` was
attempted: each iteration first short-circuits on the sticky rate-limit
flag; a thrown `auth/too-many-requests` sets the flag and halts without
failing; a thrown `auth/email-already-in-use` is skipped (in the source
this catch arm is unreachable, since `createInitialUser` swallows that
code, but it is kept for fidelity); any other thrown code propagates and
aborts the batch.  The fixed 1.5 s inter-entry delay has no observable
effect in this model and is omitted. -/
def setupLoop (env : SeedEnv) :
    List InitialUser → SeedState → List String →
    Except String SeedState × List String
  | [], s, att => (.ok s, att)
  | u :: rest, s, att =>
    if s.rateLimitFlag then (.ok s, att)
    else
      match createInitialUser env s u.email u.password u.name u.role with
      | .ok (_, s') => setupLoop env rest s' (att ++ [u.email])
      | .error c =>
        if c = "auth/too-many-requests" then
          (.ok { s with rateLimitFlag := true }, att ++ [u.email])
        else if c = "auth/email-already-in-use" then
          setupLoop env rest s (att ++ [u.email])
        else (.error c, att ++ [u.email])

/-- `setupInitialUsers` (part_001 lines 80–114): the loop over the fixed
list, starting from an empty attempt trace. -/
def setupInitialUsers (env : SeedEnv) (s : SeedState) :
    Except String SeedState × List String :=
  setupLoop env INITIAL_USERS s []

/-- A disposition under which `createInitialUser` cannot throw: the
provider either creates the account or reports it already in use. -/
def benignEntry (env : SeedEnv) (v : InitialUser) : Prop :=
  env.disposition v.email = .created
  ∨ env.disposition v.email = .otherErr "auth/email-already-in-use"

theorem createInitialUser_benign_ok (env : SeedEnv) (s : SeedState)
    (v : InitialUser) (hb : benignEntry env v) :
    ∃ r s', createInitialUser env s v.email v.password v.name v.role = .ok (r, s')
      ∧ s'.rateLimitFlag = s.rateLimitFlag
      ∧ (s'.accounts = v.email :: s.accounts ∨ s'.accounts = s.accounts) := by
  by_cases hmem : memB v.email s.accounts = true
  · exact ⟨none, s, by simp [createInitialUser, providerCreate, hmem], rfl, Or.inr rfl⟩
  · rw [Bool.not_eq_true] at hmem
    rcases hb with hb | hb
    · exact ⟨some ⟨env.uidOf v.email, v.name, v.email, v.role⟩,
        { s with accounts := v.email :: s.accounts,
                 store := storeSet s.store (env.uidOf v.email)
                   ⟨env.uidOf v.email, v.name, v.email, v.role, env.now⟩ },
        by simp [createInitialUser, providerCreate, hmem, hb], rfl, Or.inl rfl⟩
    · exact ⟨none, s, by simp [createInitialUser, providerCreate, hmem, hb], rfl,
        Or.inr rfl⟩

theorem setupLoop_rateLimit (env : SeedEnv) (u : InitialUser)
    (rest : List InitialUser) :
    ∀ (pre : List InitialUser) (s : SeedState) (att : List String),
      s.rateLimitFlag = false →
      (∀ v ∈ pre, benignEntry env v) →
      memB u.email s.accounts = false →
      (∀ v ∈ pre, v.email ≠ u.email) →
      env.disposition u.email = .rateLimited →
      ∃ s', setupLoop env (pre ++ u :: rest) s att
              = (.ok s', att ++ pre.map (·.email) ++ [u.email])
            ∧ s'.rateLimitFlag = true := by
  intro pre
  induction pre with
  | nil =>
    intro s att hflag _ hnew _ hrl
    refine ⟨{ s with rateLimitFlag := true }, ?_, rfl⟩
    simp [setupLoop, hflag, createInitialUser, providerCreate, hnew, hrl]
  | cons v pre ih =>
    intro s att hflag hben hnew hne hrl
    obtain ⟨r, s', heq, hfl, hacc⟩ :=
      createInitialUser_benign_ok env s v (hben v (by simp))
    have hnew' : memB u.email s'.accounts = false := by
      rcases hacc with h | h <;> rw [h]
      · have : v.email ≠ u.email := hne v (by simp)
        simp [memB, hnew, this]
      · exact hnew
    obtain ⟨s'', heq2, hfl2⟩ := ih s' (att ++ [v.email]) (hfl.trans hflag)
      (fun w hw => hben w (by simp [hw])) hnew'
      (fun w hw => hne w (by simp [hw])) hrl
    refine ⟨s'', ?_, hfl2⟩
    rw [List.cons_append, setupLoop, if_neg (by simp [hflag]), heq]
    simp only [heq2, List.map_cons, List.append_assoc, List.cons_append,
      List.nil_append, List.singleton_append]

theorem setupLoop_flag_halts (env : SeedEnv) (l : List InitialUser)
    (s : SeedState) (att : List String) (hflag : s.rateLimitFlag = true) :
    setupLoop env l s att = (.ok s, att) := by
  cases l with
  | nil => rfl
  | cons u rest => simp [setupLoop, hflag]

/-- C8: when the provider rate-limits some entry of the fixed list whose
predecessors are all processed without throwing, `setupInitialUsers` sets
the sticky flag, attempts exactly the entries up to and including that one
(the trace of attempted emails stops there), and returns without raising;
and invoking the seeder again from the state it left (sticky flag set)
attempts no account creation at all and changes nothing. -/
theorem setupInitialUsers_rateLimit_halt (env : SeedEnv) (s : SeedState)
    (pre : List InitialUser) (u : InitialUser) (rest : List InitialUser)
    (hsplit : INITIAL_USERS = pre ++ u :: rest)
    (hflag : s.rateLimitFlag = false)
    (hben : ∀ v ∈ pre, benignEntry env v)
    (hnew : memB u.email s.accounts = false)
    (hne : ∀ v ∈ pre, v.email ≠ u.email)
    (hrl : env.disposition u.email = .rateLimited) :
    (∃ s', setupInitialUsers env s = (.ok s', pre.map (·.email) ++ [u.email])
       ∧ s'.rateLimitFlag = true
       ∧ setupInitialUsers env s' = (.ok s', []))
    ∧ ∀ s₂ : SeedState, s₂.rateLimitFlag = true →
        setupInitialUsers env s₂ = (.ok s₂, []) := by
  obtain ⟨s', heq, hfl⟩ :=
    setupLoop_rateLimit env u rest pre s [] hflag hben hnew hne hrl
  refine ⟨⟨s', ?_, hfl, ?_⟩, fun s₂ h₂ => ?_⟩
  · rw [setupInitialUsers, hsplit, heq]; simp
  · rw [setupInitialUsers, setupLoop_flag_halts env INITIAL_USERS s' [] hfl]
  · rw [setupInitialUsers, setupLoop_flag_halts env INITIAL_USERS s₂ [] h₂]

/-- Concrete seeding oracle: rate-limit on john's entry, creation for the
others. -/
def envC8 : SeedEnv :=
  ⟨fun e => if e = "john@aspcranes.com" then .rateLimited else .created,
   fun e => e, 0⟩

/-- Concrete clean seeding state: no accounts, empty store, flag clear. -/
def sSeed0 : SeedState := ⟨[], [], false⟩

/-- C8 witness: with four entries and the rate limit at entry 2, entry 1
is processed, entry 2 halts, entries 3–4 are never attempted, the sticky
flag is set, and re-running attempts nothing. -/
theorem setupInitialUsers_rateLimit_halt_witness :
    INITIAL_USERS
      = [⟨"admin@aspcranes.com", "admin123", "Admin User", .admin⟩]
        ++ ⟨"john@aspcranes.com", "sales123", "John Sales", .sales_agent⟩
           :: [⟨"sara@aspcranes.com", "manager123", "Sara Manager", .operations_manager⟩,
               ⟨"mike@aspcranes.com", "operator123", "Mike Operator", .operator⟩]
    ∧ sSeed0.rateLimitFlag = false
    ∧ envC8.disposition "john@aspcranes.com" = .rateLimited
    ∧ ((∃ s', setupInitialUsers envC8 sSeed0
                = (.ok s', ["admin@aspcranes.com", "john@aspcranes.com"])
          ∧ s'.rateLimitFlag = true
          ∧ setupInitialUsers envC8 s' = (.ok s', []))
       ∧ ∀ s₂ : SeedState, s₂.rateLimitFlag = true →
           setupInitialUsers envC8 s₂ = (.ok s₂, [])) := by
  refine ⟨rfl, rfl, by decide, ?_⟩
  exact setupInitialUsers_rateLimit_halt envC8 sSeed0
    [⟨"admin@aspcranes.com", "admin123", "Admin User", .admin⟩]
    ⟨"john@aspcranes.com", "sales123", "John Sales", .sales_agent⟩
    [⟨"sara@aspcranes.com", "manager123", "Sara Manager", .operations_manager⟩,
     ⟨"mike@aspcranes.com", "operator123", "Mike Operator", .operator⟩]
    rfl rfl
    (by intro v hv; simp only [List.mem_singleton] at hv; subst hv
        exact Or.inl (by decide))
    rfl
    (by intro v hv; simp only [List.mem_singleton] at hv; subst hv; decide)
    (by decide)

theorem setupLoop_allExisting (env : SeedEnv) :
    ∀ (l : List InitialUser) (s : SeedState) (att : List String),
      s.rateLimitFlag = false →
      (∀ v ∈ l, memB v.email s.accounts = true) →
      setupLoop env l s att = (.ok s, att ++ l.map (·.email)) := by
  intro l
  induction l with
  | nil => intro s att _ _; simp [setupLoop]
  | cons v rest ih =>
    intro s att hflag hex
    have hv := hex v (by simp)
    rw [setupLoop, if_neg (by simp [hflag])]
    simp only [createInitialUser, providerCreate, hv, if_true]
    rw [ih s (att ++ [v.email]) hflag (fun w hw => hex w (by simp [hw]))]
    simp

/-- C9: the seeder is idempotent — when every entry of the fixed list
already has a provider account, `setupInitialUsers` treats each
already-exists response as a successful no-op: it creates no accounts,
raises no error, attempts every entry, and returns the provider/store
state exactly unchanged. -/
theorem setupInitialUsers_idempotent (env : SeedEnv) (s : SeedState)
    (hflag : s.rateLimitFlag = false)
    (hex : ∀ v ∈ INITIAL_USERS, memB v.email s.accounts = true) :
    setupInitialUsers env s = (.ok s, INITIAL_USERS.map (·.email)) := by
  rw [setupInitialUsers, setupLoop_allExisting env INITIAL_USERS s [] hflag hex]
  simp

/-- Concrete second-run state: every seeded email already has an account. -/
def sC9 : SeedState := ⟨INITIAL_USERS.map (·.email), [], false⟩

/-- Concrete benign seeding oracle for the idempotence witness. -/
def envC9 : SeedEnv := ⟨fun _ => .created, fun e => e, 0⟩

/-- C9 witness: the second run over the fixed list from a state where all
four accounts exist is a successful no-op. -/
theorem setupInitialUsers_idempotent_witness :
    sC9.rateLimitFlag = false
    ∧ (∀ v ∈ INITIAL_USERS, memB v.email sC9.accounts = true)
    ∧ setupInitialUsers envC9 sC9 = (.ok sC9, INITIAL_USERS.map (·.email)) :=
  ⟨rfl, by decide, setupInitialUsers_idempotent envC9 sC9 rfl (by decide)⟩

/-- C10: the bootstrap list provisions john@aspcranes.com as sales_agent
and sara@aspcranes.com as operations_manager, while role inference maps
both emails to operator; therefore the fallback paths that synthesize a
profile for these accounts assign a role different from the provisioned
one (shown for john's synthesized profile). -/
theorem seeded_roles_differ_from_inference :
    INITIAL_USERS[1]?
      = some ⟨"john@aspcranes.com", "sales123", "John Sales", .sales_agent⟩
    ∧ determineRoleFromEmail (some "john@aspcranes.com") = .operator
    ∧ UserRole.sales_agent ≠ .operator
    ∧ INITIAL_USERS[2]?
      = some ⟨"sara@aspcranes.com", "manager123", "Sara Manager", .operations_manager⟩
    ∧ determineRoleFromEmail (some "sara@aspcranes.com") = .operator
    ∧ UserRole.operations_manager ≠ .operator
    ∧ (fallbackUser ⟨"uid-j", some "john@aspcranes.com", some "John Sales"⟩).role
        = .operator := by
  decide

end AspCrm
